import Mathlib

/-
Shallow embedding of src/xenia/gpu/spirv_shader_translator.cc.

Float values of the emitted SPIR-V are modelled as rationals: every
operation a settled claim depends on (comparison, select, add, multiply,
divide, min, max, clamp, floor, truncating conversion) is exact on the
concrete inputs involved, so the rational model agrees with IEEE binary32
there.  SPIR-V instruction emission is modelled by its value semantics,
with an explicit event trace where a claim speaks about the emitted
structure (stores to special registers, conditional kill branches).
-/

/-- A 4-component float vector, the value of the SPIR-V type vec4 built in
StartTranslation. -/
structure Vec4 where
  x : ℚ
  y : ℚ
  z : ℚ
  w : ℚ
  deriving DecidableEq

/-- Component access by index, as used by OpCompositeExtract.  The source
contains two out-of-range extracts (component 4 in the kDst case); an
out-of-range index is modelled as 0. -/
def Vec4.nth (v : Vec4) : ℕ → ℚ
  | 0 => v.x
  | 1 => v.y
  | 2 => v.z
  | 3 => v.w
  | _ => 0

theorem Vec4.nth_zero (v : Vec4) : v.nth 0 = v.x := rfl

theorem Vec4.nth_one (v : Vec4) : v.nth 1 = v.y := rfl

theorem Vec4.nth_two (v : Vec4) : v.nth 2 = v.z := rfl

theorem Vec4.nth_three (v : Vec4) : v.nth 3 = v.w := rfl

/-- A 4-component boolean vector (SPIR-V vec4 of bool). -/
structure Bool4 where
  x : Bool
  y : Bool
  z : Bool
  w : Bool
  deriving DecidableEq

def vec4zero : Vec4 := ⟨0, 0, 0, 0⟩

def vec4one : Vec4 := ⟨1, 1, 1, 1⟩

/-- Lanewise binary float operation (OpFAdd / OpFMul / OpFDiv / FMax / FMin
on vec4 operands). -/
def Vec4.map2 (f : ℚ → ℚ → ℚ) (a b : Vec4) : Vec4 :=
  ⟨f a.x b.x, f a.y b.y, f a.z b.z, f a.w b.w⟩

def add4 (a b : Vec4) : Vec4 := Vec4.map2 (· + ·) a b

def mul4 (a b : Vec4) : Vec4 := Vec4.map2 (· * ·) a b

def div4 (a b : Vec4) : Vec4 := Vec4.map2 (· / ·) a b

def max4 (a b : Vec4) : Vec4 := Vec4.map2 max a b

def min4 (a b : Vec4) : Vec4 := Vec4.map2 min a b

def abs4 (v : Vec4) : Vec4 := ⟨|v.x|, |v.y|, |v.z|, |v.w|⟩

def neg4 (v : Vec4) : Vec4 := ⟨-v.x, -v.y, -v.z, -v.w⟩

/-- smearScalar: broadcast a scalar to all four lanes. -/
def smear4 (q : ℚ) : Vec4 := ⟨q, q, q, q⟩

def smearB (b : Bool) : Bool4 := ⟨b, b, b, b⟩

/-- Lanewise comparison (OpFOrdEqual and friends at vec4 type). -/
def cmp4 (f : ℚ → ℚ → Bool) (a b : Vec4) : Bool4 :=
  ⟨f a.x b.x, f a.y b.y, f a.z b.z, f a.w b.w⟩

def fOrdEq (a b : ℚ) : Bool := decide (a = b)

def fOrdNe (a b : ℚ) : Bool := decide (a ≠ b)

def fOrdGe (a b : ℚ) : Bool := decide (a ≥ b)

def fOrdGt (a b : ℚ) : Bool := decide (a > b)

def fOrdLe (a b : ℚ) : Bool := decide (a ≤ b)

def fOrdLt (a b : ℚ) : Bool := decide (a < b)

/-- OpSelect at vec4 type: per-lane choice. -/
def select4 (c : Bool4) (t e : Vec4) : Vec4 :=
  ⟨if c.x then t.x else e.x, if c.y then t.y else e.y,
   if c.z then t.z else e.z, if c.w then t.w else e.w⟩

/-- OpAny: logical OR across the lanes of a bool vector. -/
def Bool4.any (c : Bool4) : Bool := c.x || c.y || c.z || c.w

/-- OpLogicalAnd at vec4 bool type. -/
def and4 (a b : Bool4) : Bool4 := ⟨a.x && b.x, a.y && b.y, a.z && b.z, a.w && b.w⟩

/-- OpConvertFToS: conversion of a float to a signed integer rounds toward
zero (truncation), per the SPIR-V specification. -/
def fToS (q : ℚ) : ℤ := if q < 0 then ⌈q⌉ else ⌊q⌋

/-- OpConvertFToU, also rounding toward zero; a negative input is undefined
in SPIR-V and is modelled as 0. -/
def fToU (q : ℚ) : ℕ := (fToS q).toNat

/-- GLSL.std.450 SClamp: min(max(x, lo), hi) on signed integers. -/
def sclamp (a lo hi : ℤ) : ℤ := min (max a lo) hi

/-- GLSL.std.450 FClamp: min(max(x, lo), hi) on floats. -/
def fclamp (a lo hi : ℚ) : ℚ := min (max a lo) hi

/-- FLT_MAX, the largest finite binary32 value, exactly 2^128 - 2^104. -/
def fltMax : ℚ := 2 ^ 128 - 2 ^ 104

/-- GLSL.std.450 Fract: x - floor(x). -/
def fractQ (q : ℚ) : ℚ := q - ⌊q⌋

/-
Pixel-shader epilogue alpha test, CompleteTranslation lines 452-504.
The push-constant alpha_test vector supplies (enabled, func, ref) in
lanes 0, 1, 2; the tested value is lane 3 (alpha) of color target 0.
The test runs only when enabled compares equal to 1.0.  The selector is
converted with OpConvertFToU and switched over the 8 segments
0..7 with default segment 7; segment 0 discards unconditionally,
segments 1..6 discard when the comparison from alpha_op_map, applied as
cmp(oC0_alpha, alpha_test_ref), holds, and segment 7 falls through
without a discard.  alpha_op_map is (Nop, GreaterThanEqual, NotEqual,
GreaterThan, LessThanEqual, Equal, LessThan, Nop).
-/

/-- Whether the pixel epilogue executes OpKill for the given push-constant
alpha test parameters and color-target-0 alpha. -/
def alphaTestDiscards (enabled func ref alpha : ℚ) : Bool :=
  if enabled = 1 then
    let f := fToU func
    if f = 0 then true
    else if f = 1 then fOrdGe alpha ref
    else if f = 2 then fOrdNe alpha ref
    else if f = 3 then fOrdGt alpha ref
    else if f = 4 then fOrdLe alpha ref
    else if f = 5 then fOrdEq alpha ref
    else if f = 6 then fOrdLt alpha ref
    else false
  else false

/-
Vertex-shader epilogue, CompleteTranslation lines 413-450: the
vtx_fmt-gated perspective divide and window scale applied to gl_Position.
-/

/-- Value-level semantics of the vertex position epilogue: given the
vtx_fmt and window_scale push constants and the clip position written by
the translated shader, the value stored back to gl_Position. -/
def vertexPosEpilogue (vtx_fmt window_scale p : Vec4) : Vec4 :=
  let c : Bool4 := cmp4 fOrdNe vtx_fmt vec4zero
  let p_w := if c.w then p.w else 1 / p.w
  let p_all_w := smear4 p_w
  let p_inv := div4 p p_all_w
  let p1 := select4 c p_inv p
  let p2 : Vec4 := { p1 with w := p_w }
  let p_scaled := mul4 p2 window_scale
  ⟨p_scaled.x, p_scaled.y, p2.z, p2.w⟩

/-- C1 counterexample: with alpha test enabled, selector 4 and reference
0.5, a fragment whose color-target-0 alpha is 0.3 is discarded by the
emitted epilogue, contradicting the claim that it passes (the claim reads
selector 4 as a pass test; the code uses the table entry as the discard
condition). -/
theorem alpha_test_sel4_claim_counterexample :
    alphaTestDiscards 1 4 (1 / 2) (3 / 10) = true := by
  have hs : fToS 4 = 4 := by norm_num [fToS]
  have h4 : fToU 4 = 4 := by rw [fToU, hs]; rfl
  norm_num [alphaTestDiscards, h4, fOrdLe]

/-- C1 amended: with the test enabled, the fragment is discarded exactly
when the table comparison indexed by the selector, applied as
cmp(alpha, ref), holds: selector 0 always discards, selector 1 discards
on alpha ≥ ref, 2 on alpha ≠ ref, 3 on alpha > ref, 4 on alpha ≤ ref,
5 on alpha = ref, 6 on alpha < ref, and selector 7 never discards; hence
with selector 4 and reference 0.5 a fragment of alpha 0.3 is discarded
while one of alpha 0.7 passes. -/
theorem alpha_test_sel4_discards_on_le :
    (∀ ref alpha : ℚ, alphaTestDiscards 1 4 ref alpha = true ↔ alpha ≤ ref) ∧
    alphaTestDiscards 1 4 (1 / 2) (3 / 10) = true ∧
    alphaTestDiscards 1 4 (1 / 2) (7 / 10) = false ∧
    (∀ ref alpha : ℚ, alphaTestDiscards 1 0 ref alpha = true) ∧
    (∀ ref alpha : ℚ, alphaTestDiscards 1 1 ref alpha = true ↔ alpha ≥ ref) ∧
    (∀ ref alpha : ℚ, alphaTestDiscards 1 2 ref alpha = true ↔ alpha ≠ ref) ∧
    (∀ ref alpha : ℚ, alphaTestDiscards 1 3 ref alpha = true ↔ alpha > ref) ∧
    (∀ ref alpha : ℚ, alphaTestDiscards 1 5 ref alpha = true ↔ alpha = ref) ∧
    (∀ ref alpha : ℚ, alphaTestDiscards 1 6 ref alpha = true ↔ alpha < ref) ∧
    (∀ ref alpha : ℚ, alphaTestDiscards 1 7 ref alpha = false) := by
  have hs0 : fToS 0 = 0 := by norm_num [fToS]
  have h0 : fToU 0 = 0 := by rw [fToU, hs0]; rfl
  have hs1 : fToS 1 = 1 := by norm_num [fToS]
  have h1 : fToU 1 = 1 := by rw [fToU, hs1]; rfl
  have hs2 : fToS 2 = 2 := by norm_num [fToS]
  have h2 : fToU 2 = 2 := by rw [fToU, hs2]; rfl
  have hs3 : fToS 3 = 3 := by norm_num [fToS]
  have h3 : fToU 3 = 3 := by rw [fToU, hs3]; rfl
  have hs4 : fToS 4 = 4 := by norm_num [fToS]
  have h4 : fToU 4 = 4 := by rw [fToU, hs4]; rfl
  have hs5 : fToS 5 = 5 := by norm_num [fToS]
  have h5 : fToU 5 = 5 := by rw [fToU, hs5]; rfl
  have hs6 : fToS 6 = 6 := by norm_num [fToS]
  have h6 : fToU 6 = 6 := by rw [fToU, hs6]; rfl
  have hs7 : fToS 7 = 7 := by norm_num [fToS]
  have h7 : fToU 7 = 7 := by rw [fToU, hs7]; rfl
  refine ⟨fun ref alpha => ?_,
    by norm_num [alphaTestDiscards, h4, fOrdLe],
    by norm_num [alphaTestDiscards, h4, fOrdLe],
    fun ref alpha => ?_, fun ref alpha => ?_, fun ref alpha => ?_,
    fun ref alpha => ?_, fun ref alpha => ?_, fun ref alpha => ?_,
    fun ref alpha => ?_⟩
  · norm_num [alphaTestDiscards, h4, fOrdLe]
  · norm_num [alphaTestDiscards, h0]
  · norm_num [alphaTestDiscards, h1, fOrdGe]
  · norm_num [alphaTestDiscards, h2, fOrdNe]
  · norm_num [alphaTestDiscards, h3, fOrdGt]
  · norm_num [alphaTestDiscards, h5, fOrdEq]
  · norm_num [alphaTestDiscards, h6, fOrdLt]
  · norm_num [alphaTestDiscards, h7]

/-- C7 counterexample: with every vtx_fmt lane equal to 0.0 and window
scale 1, the claim says the stored position equals the shader-written
position unchanged, but the code replaces the w lane by its reciprocal:
position (1,1,1,2) comes back with w = 1/2. -/
theorem vertex_epilogue_w_lane_counterexample :
    ¬ vertexPosEpilogue ⟨0, 0, 0, 0⟩ ⟨1, 1, 1, 1⟩ ⟨1, 1, 1, 2⟩ = ⟨1, 1, 1, 2⟩ := by
  norm_num [vertexPosEpilogue, cmp4, fOrdNe, select4, div4, mul4, smear4, Vec4.map2,
    vec4zero, Vec4.mk.injEq]

/-- C7 amended: the x, y and z lanes follow the claimed per-lane gating
with divisor pw = (if vtx_fmt.w ≠ 0 then p.w else 1/p.w), and x and y are
multiplied by window_scale only after that conditional divide; the w lane,
however, is replaced by pw itself: inverted when its format flag is 0.0
and left unmodified (never divided) when the flag is non-zero. -/
theorem vertex_epilogue_lane_semantics :
    ∀ fmt ws p : Vec4,
      vertexPosEpilogue fmt ws p =
        ⟨(if fmt.x ≠ 0 then p.x / (if fmt.w ≠ 0 then p.w else 1 / p.w) else p.x) * ws.x,
         (if fmt.y ≠ 0 then p.y / (if fmt.w ≠ 0 then p.w else 1 / p.w) else p.y) * ws.y,
         (if fmt.z ≠ 0 then p.z / (if fmt.w ≠ 0 then p.w else 1 / p.w) else p.z),
         (if fmt.w ≠ 0 then p.w else 1 / p.w)⟩ := by
  intro fmt ws p
  by_cases hx : fmt.x = 0 <;> by_cases hy : fmt.y = 0 <;>
    by_cases hz : fmt.z = 0 <;> by_cases hw : fmt.w = 0 <;>
    simp [vertexPosEpilogue, cmp4, fOrdNe, select4, div4, mul4, smear4, Vec4.map2,
      vec4zero, hx, hy, hz, hw]

/-
Operand and result descriptors, as consumed by LoadFromOperand (lines
1932-2054) and StoreToResult (lines 2056-2261).  The descriptor structs
themselves come from the decoder (shader_translator.h, outside src); the
fields mirror the ones this translation unit reads.
-/

/-- Per-lane source selector of a swizzle. -/
inductive SwizzleSource
  | kX
  | kY
  | kZ
  | kW
  | k0
  | k1
  deriving DecidableEq

/-- The 4-entry component selector array of an operand or result. -/
structure Swz4 where
  c0 : SwizzleSource
  c1 : SwizzleSource
  c2 : SwizzleSource
  c3 : SwizzleSource
  deriving DecidableEq

/-- Array access; indices used by the translator are always below 4, the
catch-all is never reached. -/
def Swz4.get (s : Swz4) : ℕ → SwizzleSource
  | 0 => s.c0
  | 1 => s.c1
  | 2 => s.c2
  | 3 => s.c3
  | _ => s.c0

/-- The 4-entry write mask array of a result. -/
structure Mask4 where
  m0 : Bool
  m1 : Bool
  m2 : Bool
  m3 : Bool
  deriving DecidableEq

def Mask4.get (m : Mask4) : ℕ → Bool
  | 0 => m.m0
  | 1 => m.m1
  | 2 => m.m2
  | 3 => m.m3
  | _ => false

inductive InstructionStorageSource
  | kRegister
  | kConstantFloat
  | kVertexFetchConstant
  | kTextureFetchConstant
  deriving DecidableEq

inductive InstructionStorageAddressingMode
  | kStatic
  | kAddressAbsolute
  | kAddressRelative
  deriving DecidableEq

inductive InstructionStorageTarget
  | kNone
  | kRegister
  | kInterpolant
  | kPosition
  | kPointSize
  | kColorTarget
  | kDepth
  deriving DecidableEq

structure InstructionOperand where
  storage_source : InstructionStorageSource
  storage_addressing_mode : InstructionStorageAddressingMode
  storage_index : ℕ
  is_negated : Bool
  is_absolute_value : Bool
  component_count : ℕ
  components : Swz4
  deriving DecidableEq

/-- Modelled from the spec: the operand helper is declared in
shader_translator.h (outside src); per the spec an operand uses the
identity swizzle when every one of its four lanes selects its own
component, anything else takes the shuffle path. -/
def InstructionOperand.is_standard_swizzle (op : InstructionOperand) : Bool :=
  decide (op.component_count = 4) &&
    decide (op.components = Swz4.mk SwizzleSource.kX SwizzleSource.kY
      SwizzleSource.kZ SwizzleSource.kW)

structure InstructionResult where
  storage_target : InstructionStorageTarget
  storage_addressing_mode : InstructionStorageAddressingMode
  storage_index : ℕ
  is_clamped : Bool
  write_mask : Mask4
  components : Swz4
  deriving DecidableEq

/-- Modelled from the spec: declared in shader_translator.h (outside src);
true when at least one write-mask bit is set ("a result with no active
write bits is a no-op"). -/
def InstructionResult.has_any_writes (r : InstructionResult) : Bool :=
  r.write_mask.m0 || r.write_mask.m1 || r.write_mask.m2 || r.write_mask.m3

/-- Modelled from the spec: declared in shader_translator.h (outside src);
true when all four write-mask bits are set. -/
def InstructionResult.has_all_writes (r : InstructionResult) : Bool :=
  r.write_mask.m0 && r.write_mask.m1 && r.write_mask.m2 && r.write_mask.m3

/-- Modelled from the spec: declared in shader_translator.h (outside src);
a result swizzle is standard when each lane selects its own component. -/
def InstructionResult.is_standard_swizzle (r : InstructionResult) : Bool :=
  decide (r.components = Swz4.mk SwizzleSource.kX SwizzleSource.kY
    SwizzleSource.kZ SwizzleSource.kW)

/-- The four vec4-typed storage targets of StoreToResult; kNone and
kPointSize resolve no pointer and kDepth is the 1-component depth
output. -/
def InstructionResult.isVec4Target (r : InstructionResult) : Bool :=
  match r.storage_target with
  | .kRegister => true
  | .kInterpolant => true
  | .kPosition => true
  | .kColorTarget => true
  | _ => false

/-- OpVectorShuffle source selection over the concatenation of a vec4 and
a 2-component literal vector, as built by the swizzle paths of
LoadFromOperand and StoreToResult (operand list: value, (lit0, lit1),
then one index in 0..5 per destination lane). -/
def shuffleSel42 (v : Vec4) (lit0 lit1 : ℚ) : ℕ → ℚ
  | 0 => v.x
  | 1 => v.y
  | 2 => v.z
  | 3 => v.w
  | 4 => lit0
  | 5 => lit1
  | _ => 0

def vectorShuffle42 (v : Vec4) (lit0 lit1 : ℚ) (i0 i1 i2 i3 : ℕ) : Vec4 :=
  ⟨shuffleSel42 v lit0 lit1 i0, shuffleSel42 v lit0 lit1 i1,
   shuffleSel42 v lit0 lit1 i2, shuffleSel42 v lit0 lit1 i3⟩

/-- OpVectorShuffle source selection over two vec4 vectors, as built by
the write-mask merge of StoreToResult (indices 0..3 pick the new value,
4..7 the held value). -/
def shuffleSel44 (a b : Vec4) : ℕ → ℚ
  | 0 => a.x
  | 1 => a.y
  | 2 => a.z
  | 3 => a.w
  | 4 => b.x
  | 5 => b.y
  | 6 => b.z
  | 7 => b.w
  | _ => 0

def vectorShuffle44 (a b : Vec4) (i0 i1 i2 i3 : ℕ) : Vec4 :=
  ⟨shuffleSel44 a b i0, shuffleSel44 a b i1, shuffleSel44 a b i2, shuffleSel44 a b i3⟩

/-- The shuffle operand index pushed for one swizzle selector (cases at
lines 2027-2046 and 2213-2232). -/
def swizShuffleIndex : SwizzleSource → ℕ
  | .kX => 0
  | .kY => 1
  | .kZ => 2
  | .kW => 3
  | .k0 => 4
  | .k1 => 5

/-- The uint32 value of component_count - 1 as computed by the C++
comparison at line 2023 (unsigned wrap-around when component_count is 0). -/
def lastSwizzleLane (count : ℕ) : ℕ := (count + 4294967295) % 4294967296

/-- The swizzle entry selecting destination lane i of a loaded operand:
entries past component_count - 1 replicate the last specified entry
(lines 2021-2025). -/
def loadSwizzleEntry (op : InstructionOperand) (i : ℕ) : SwizzleSource :=
  if i > lastSwizzleLane op.component_count then
    op.components.get (op.component_count - 1)
  else op.components.get i

/-- The translation-visible storage state LoadFromOperand reads: the r
register array, the float_consts member of the uniform block, the a0
address register, the shader stage, and the value of OpUndef (returned
for the fetch-constant sources the function must not see). -/
structure ShaderEnv where
  registers : ℕ → Vec4
  float_consts : ℕ → Vec4
  a0 : ℤ
  is_pixel : Bool
  undef : Vec4

/-- Out of the 512 float constant registers pixel shaders get the last
256 (lines 1941-1945). -/
def loadStorageBase (env : ShaderEnv) (op : InstructionOperand) : ℕ :=
  if op.storage_source = InstructionStorageSource.kConstantFloat then
    (if env.is_pixel then 256 else 0)
  else 0

/-- Effective storage index (lines 1947-1967).  The address-absolute mode
adds a0 with 32-bit unsigned wrap-around; the loop-relative mode adds a
constant 0 in this translator. -/
def loadEffectiveIndex (env : ShaderEnv) (op : InstructionOperand) : ℕ :=
  match op.storage_addressing_mode with
  | .kStatic => loadStorageBase env op + op.storage_index
  | .kAddressAbsolute =>
      ((env.a0 + ((loadStorageBase env op + op.storage_index : ℕ) : ℤ)) % (2 ^ 32)).toNat
  | .kAddressRelative => 0 + (loadStorageBase env op + op.storage_index)

/-- The vec4 loaded through the resolved access chain (lines 1969-1999);
the fetch-constant sources assert and leave the pointer null, producing
an undefined vec4. -/
def loadRaw (env : ShaderEnv) (op : InstructionOperand) : Vec4 :=
  match op.storage_source with
  | .kRegister => env.registers (loadEffectiveIndex env op)
  | .kConstantFloat => env.float_consts (loadEffectiveIndex env op)
  | .kVertexFetchConstant => env.undef
  | .kTextureFetchConstant => env.undef

/-- The loaded value after absolute value and negation (lines 2002-2009). -/
def loadAdjusted (env : ShaderEnv) (op : InstructionOperand) : Vec4 :=
  let v0 := loadRaw env op
  let v1 := if op.is_absolute_value then abs4 v0 else v0
  if op.is_negated then neg4 v1 else v1

/-- Value semantics of LoadFromOperand (lines 1932-2054). -/
def loadFromOperand (env : ShaderEnv) (op : InstructionOperand) : Vec4 :=
  let v := loadAdjusted env op
  if op.is_standard_swizzle then v
  else
    vectorShuffle42 v 0 1
      (swizShuffleIndex (loadSwizzleEntry op 0))
      (swizShuffleIndex (loadSwizzleEntry op 1))
      (swizShuffleIndex (loadSwizzleEntry op 2))
      (swizShuffleIndex (loadSwizzleEntry op 3))

/-- Reference per-lane meaning of one swizzle selector over a source
value: one of the four source lanes or the literal 0.0 / 1.0. -/
def swizRef (v : Vec4) : SwizzleSource → ℚ
  | .kX => v.x
  | .kY => v.y
  | .kZ => v.z
  | .kW => v.w
  | .k0 => 0
  | .k1 => 1

def clamp4 (v : Vec4) : Vec4 :=
  ⟨fclamp v.x 0 1, fclamp v.y 0 1, fclamp v.z 0 1, fclamp v.w 0 1⟩

/-- Shuffle operand index for destination lane i of the result swizzle
path (lines 2205-2232): an unwritten lane pushes index 0 (value is a
do-not-care overwritten by the mask merge), a written lane pushes the
index named by its swizzle selector. -/
def storeSwizzleIndex (r : InstructionResult) (i : ℕ) : ℕ :=
  if r.write_mask.get i = false then 0
  else swizShuffleIndex (r.components.get i)

/-- Shuffle operand index for destination lane i of the write-mask merge
(lines 2240-2252): a written lane keeps the new value lane i, an
unwritten lane picks held-value lane i (source component count 4 + i). -/
def storeMaskIndex (r : InstructionResult) (i : ℕ) : ℕ :=
  if r.write_mask.get i then i else 4 + i

/-- Value semantics of StoreToResult (lines 2056-2261) for a vec4-typed
destination: given the source value, the value the destination held
before the store and the result descriptor, the value the destination
holds afterwards.  The early returns are the kNone target, the empty
write mask, and targets resolving no vec4 pointer (kPointSize resolves
none at all; the 1-component kDepth path is outside this vec4 model).
The source value is already 4 components wide, so the widening step
(lines 2171-2193) is the identity here. -/
def storeToResultVec4 (src old : Vec4) (r : InstructionResult) : Vec4 :=
  if r.storage_target = InstructionStorageTarget.kNone then old
  else if r.has_any_writes = false then old
  else if r.isVec4Target = false then old
  else
    let v1 := if r.is_clamped then clamp4 src else src
    let v2 := if r.is_standard_swizzle then v1
      else
        vectorShuffle42 v1 0 1 (storeSwizzleIndex r 0) (storeSwizzleIndex r 1)
          (storeSwizzleIndex r 2) (storeSwizzleIndex r 3)
    if r.has_all_writes then v2
    else
      vectorShuffle44 v2 old (storeMaskIndex r 0) (storeMaskIndex r 1)
        (storeMaskIndex r 2) (storeMaskIndex r 3)

/-- C4: for an operand with a non-identity swizzle and component_count in
1..4, every destination lane i of the loaded value is exactly the lane of
the abs/negate-adjusted source value (or the literal 0.0 / 1.0) named by
swizzle entry min(i, component_count - 1), so trailing lanes replicate
the last explicitly specified entry. -/
theorem load_operand_swizzle_lanes :
    ∀ (env : ShaderEnv) (op : InstructionOperand),
      op.is_standard_swizzle = false →
      1 ≤ op.component_count → op.component_count ≤ 4 →
      ∀ i : ℕ, i < 4 →
        (loadFromOperand env op).nth i =
          swizRef (loadAdjusted env op)
            (op.components.get (min i (op.component_count - 1))) := by
  intro env op hstd hlo hhi i hi
  have hll : lastSwizzleLane op.component_count = op.component_count - 1 := by
    rw [lastSwizzleLane]
    omega
  have hentry : ∀ j : ℕ,
      loadSwizzleEntry op j = op.components.get (min j (op.component_count - 1)) := by
    intro j
    rw [loadSwizzleEntry, hll]
    rcases le_or_lt j (op.component_count - 1) with h | h
    · rw [if_neg (by omega), min_eq_left h]
    · rw [if_pos h, min_eq_right (by omega)]
  have hsel : ∀ (v : Vec4) (s : SwizzleSource),
      shuffleSel42 v 0 1 (swizShuffleIndex s) = swizRef v s := by
    intro v s
    cases s <;> rfl
  simp only [loadFromOperand, hstd, Bool.false_eq_true, if_false]
  interval_cases i <;>
    simp only [vectorShuffle42, Vec4.nth_zero, Vec4.nth_one, Vec4.nth_two,
      Vec4.nth_three, hentry, hsel]

/-- C4 witness: a concrete 2-component operand with swizzle (y, w) over
the register value (5, 6, 7, 8); lane 3 replicates entry 1 and selects
the adjusted w component. -/
theorem load_operand_swizzle_lanes_witness :
    (loadFromOperand
        ⟨fun _ => ⟨5, 6, 7, 8⟩, fun _ => vec4zero, 0, false, vec4zero⟩
        ⟨.kRegister, .kStatic, 0, false, false, 2, ⟨.kY, .kW, .kX, .kX⟩⟩).nth 3 =
      swizRef
        (loadAdjusted
          ⟨fun _ => ⟨5, 6, 7, 8⟩, fun _ => vec4zero, 0, false, vec4zero⟩
          ⟨.kRegister, .kStatic, 0, false, false, 2, ⟨.kY, .kW, .kX, .kX⟩⟩)
        (Swz4.get ⟨.kY, .kW, .kX, .kX⟩ (min 3 (2 - 1))) :=
  load_operand_swizzle_lanes
    ⟨fun _ => ⟨5, 6, 7, 8⟩, fun _ => vec4zero, 0, false, vec4zero⟩
    ⟨.kRegister, .kStatic, 0, false, false, 2, ⟨.kY, .kW, .kX, .kX⟩⟩
    rfl (by norm_num) (by norm_num) 3 (by norm_num)

/-- C3: for every write mask (all 16 combinations) on a vec4-typed
destination with the standard result swizzle, the stored value keeps
every unwritten lane at the value the destination held before the store
and sets every written lane to the source lane, clamped to the unit
interval first when the result is flagged is_clamped. -/
theorem store_result_write_mask_lanes :
    ∀ (src old : Vec4) (r : InstructionResult),
      r.is_standard_swizzle = true →
      r.isVec4Target = true →
      ∀ i : ℕ, i < 4 →
        (storeToResultVec4 src old r).nth i =
          if r.write_mask.get i = true then
            (if r.is_clamped then fclamp (src.nth i) 0 1 else src.nth i)
          else old.nth i := by
  intro src old r hswz htgt i hi
  rcases r with ⟨tgt, am, si, cl, ⟨m0, m1, m2, m3⟩, comps⟩
  have hc : comps = Swz4.mk .kX .kY .kZ .kW := by
    exact of_decide_eq_true hswz
  subst hc
  have hne : ¬ tgt = InstructionStorageTarget.kNone := by
    intro h
    subst h
    simp [InstructionResult.isVec4Target] at htgt
  cases m0 <;> cases m1 <;> cases m2 <;> cases m3 <;> cases cl <;> interval_cases i <;>
    simp [storeToResultVec4, hne, htgt, InstructionResult.has_any_writes,
      InstructionResult.has_all_writes, InstructionResult.is_standard_swizzle,
      vectorShuffle42, vectorShuffle44, shuffleSel42, shuffleSel44,
      storeSwizzleIndex, storeMaskIndex, Mask4.get, Swz4.get, swizShuffleIndex,
      clamp4, Vec4.nth_zero, Vec4.nth_one, Vec4.nth_two, Vec4.nth_three]

/-- C3 witness: a clamped store of (2, -3, 1/2, 5) over held value
(9, 9, 9, 9) with write mask (true, false, true, false): lane 0 becomes
clamp(2) and lane 1 keeps 9. -/
theorem store_result_write_mask_lanes_witness :
    (storeToResultVec4 ⟨2, -3, 1 / 2, 5⟩ ⟨9, 9, 9, 9⟩
        ⟨.kRegister, .kStatic, 3, true, ⟨true, false, true, false⟩,
          ⟨.kX, .kY, .kZ, .kW⟩⟩).nth 0 =
      if Mask4.get ⟨true, false, true, false⟩ 0 = true then
        (if true then fclamp (Vec4.nth ⟨2, -3, 1 / 2, 5⟩ 0) 0 1
         else Vec4.nth ⟨2, -3, 1 / 2, 5⟩ 0)
      else Vec4.nth ⟨9, 9, 9, 9⟩ 0 :=
  store_result_write_mask_lanes ⟨2, -3, 1 / 2, 5⟩ ⟨9, 9, 9, 9⟩
    ⟨.kRegister, .kStatic, 3, true, ⟨true, false, true, false⟩, ⟨.kX, .kY, .kZ, .kW⟩⟩
    rfl rfl 0 (by norm_num)

/-
Vector and scalar ALU lowering, ProcessVectorAluInstruction (lines
1036-1445) and ProcessScalarAluInstruction (lines 1447-1922).  Each
opcode case is modelled as a pure function from the loaded sources to an
optional destination value plus the trace of builder calls it emits
(stores to a0 / p0, block creation and the conditional kill branch).
Opcodes that reach the default branch (assert_unhandled_case) leave dest
unset; they are collapsed into one kUnhandled stand-in constructor per
pipe, as are the remaining enum values this translation unit never
names.
-/

/-- One emitted builder call. -/
inductive Emit
  | newBlock (id : ℕ)
  | condBranch (cond : Bool) (ifTrue ifFalse : ℕ)
  | killOp (blk : ℕ)
  | setBuildPoint (blk : ℕ)
  | a0Store (v : ℤ)
  | p0Store (v : Bool)
  | pvStore (v : Vec4)
  | psStore (v : ℚ)
  | resultStoreV (v : Vec4) (r : InstructionResult)
  | resultStoreS (v : ℚ) (r : InstructionResult)
  deriving DecidableEq

/-- Outcome of one opcode case: the optional destination value, the trace
of builder calls emitted inside the case, and the next fresh block id of
the builder. -/
structure AluEmit (α : Type) where
  dest : Option α
  trace : List Emit
  fresh : ℕ
  deriving DecidableEq

/-- Abstract semantics of the GLSL.std.450 / SPIR-V operations that have
no exact rational counterpart; the translator only forwards them to the
external instruction set, so they are parameters of the model. -/
structure Float32Oracle where
  sinQ : ℚ → ℚ
  cosQ : ℚ → ℚ
  exp2Q : ℚ → ℚ
  log2Q : ℚ → ℚ
  sqrtQ : ℚ → ℚ
  invSqrtQ : ℚ → ℚ
  isInf : ℚ → Bool

/-- An oracle sending every transcendental to 0; used to instantiate
closed evaluations of opcodes that do not consult the oracle. -/
def zeroOracle : Float32Oracle :=
  ⟨fun _ => 0, fun _ => 0, fun _ => 0, fun _ => 0, fun _ => 0, fun _ => 0,
   fun _ => false⟩

def floor4 (v : Vec4) : Vec4 := ⟨(⌊v.x⌋ : ℚ), (⌊v.y⌋ : ℚ), (⌊v.z⌋ : ℚ), (⌊v.w⌋ : ℚ)⟩

def fract4 (v : Vec4) : Vec4 := ⟨fractQ v.x, fractQ v.y, fractQ v.z, fractQ v.w⟩

def trunc4 (v : Vec4) : Vec4 :=
  ⟨(fToS v.x : ℚ), (fToS v.y : ℚ), (fToS v.z : ℚ), (fToS v.w : ℚ)⟩

inductive AluVectorOpcode
  | kAdd
  | kCndEq
  | kCndGe
  | kCndGt
  | kCube
  | kDst
  | kDp2Add
  | kDp3
  | kDp4
  | kFloor
  | kFrc
  | kKillEq
  | kKillGe
  | kKillGt
  | kKillNe
  | kMad
  | kMax4
  | kMaxA
  | kMax
  | kMin
  | kMul
  | kSetpEqPush
  | kSetpGePush
  | kSetpGtPush
  | kSetpNePush
  | kSeq
  | kSge
  | kSgt
  | kSne
  | kTrunc
  | kUnhandled
  deriving DecidableEq

/-- The per-opcode body of ProcessVectorAluInstruction (switch at lines
1075-1430): sources are the three loaded vec4 operands, fresh is the next
block id the builder would hand out. -/
def vectorAluDispatch (fresh : ℕ) (op : AluVectorOpcode) (s0 s1 s2 : Vec4) :
    AluEmit Vec4 :=
  match op with
  | .kAdd => ⟨some (add4 s0 s1), [], fresh⟩
  | .kCndEq => ⟨some (select4 (cmp4 fOrdEq s0 vec4zero) s1 s2), [], fresh⟩
  | .kCndGe => ⟨some (select4 (cmp4 fOrdGe s0 vec4zero) s1 s2), [], fresh⟩
  | .kCndGt => ⟨some (select4 (cmp4 fOrdGt s0 vec4zero) s1 s2), [], fresh⟩
  | .kCube => ⟨none, [], fresh⟩
  | .kDst =>
      -- The source extracts component 3 of sources[0] (the comment says z)
      -- and the out-of-range component 4 of sources[1], modelled as 0.
      ⟨some ⟨1, s0.y * s1.y, s0.nth 3, s1.nth 4⟩, [], fresh⟩
  | .kDp2Add => ⟨some (smear4 (s0.x * s1.x + s0.y * s1.y + s2.x)), [], fresh⟩
  | .kDp3 => ⟨some (smear4 (s0.x * s1.x + s0.y * s1.y + s0.z * s1.z)), [], fresh⟩
  | .kDp4 =>
      ⟨some (smear4 (s0.x * s1.x + s0.y * s1.y + s0.z * s1.z + s0.w * s1.w)), [],
       fresh⟩
  | .kFloor => ⟨some (floor4 s0), [], fresh⟩
  | .kFrc => ⟨some (fract4 s0), [], fresh⟩
  | .kKillEq =>
      ⟨some vec4zero,
       [.newBlock fresh, .newBlock (fresh + 1),
        .condBranch (cmp4 fOrdEq s0 s1).any (fresh + 1) fresh,
        .setBuildPoint (fresh + 1), .killOp (fresh + 1), .setBuildPoint fresh],
       fresh + 2⟩
  | .kKillGe =>
      ⟨some vec4zero,
       [.newBlock fresh, .newBlock (fresh + 1),
        .condBranch (cmp4 fOrdGe s0 s1).any (fresh + 1) fresh,
        .setBuildPoint (fresh + 1), .killOp (fresh + 1), .setBuildPoint fresh],
       fresh + 2⟩
  | .kKillGt =>
      ⟨some vec4zero,
       [.newBlock fresh, .newBlock (fresh + 1),
        .condBranch (cmp4 fOrdGt s0 s1).any (fresh + 1) fresh,
        .setBuildPoint (fresh + 1), .killOp (fresh + 1), .setBuildPoint fresh],
       fresh + 2⟩
  | .kKillNe =>
      ⟨some vec4zero,
       [.newBlock fresh, .newBlock (fresh + 1),
        .condBranch (cmp4 fOrdNe s0 s1).any (fresh + 1) fresh,
        .setBuildPoint (fresh + 1), .killOp (fresh + 1), .setBuildPoint fresh],
       fresh + 2⟩
  | .kMad => ⟨some (add4 (mul4 s0 s1) s2), [], fresh⟩
  | .kMax4 =>
      ⟨some (smear4 (max (max s0.x s0.y) (max s0.z s0.w))), [], fresh⟩
  | .kMaxA =>
      ⟨some (max4 s0 s1),
       [.a0Store (sclamp (fToS (s0.w + 1 / 2)) (-256) 255)], fresh⟩
  | .kMax =>
      -- The source skips the max when the two operand ids coincide;
      -- id equality is modelled as value equality (max4 v v = v).
      ⟨some (if s0 = s1 then s0 else max4 s0 s1), [], fresh⟩
  | .kMin => ⟨some (if s0 = s1 then s0 else min4 s0 s1), [], fresh⟩
  | .kMul => ⟨some (mul4 s0 s1), [], fresh⟩
  | .kSetpEqPush =>
      let c_and := and4 (cmp4 fOrdEq s0 vec4zero) (cmp4 fOrdEq s1 vec4zero)
      ⟨some (select4 (smearB c_and.x) vec4zero (smear4 (s0.x + 1))),
       [.p0Store c_and.w], fresh⟩
  | .kSetpGePush =>
      let c_and := and4 (cmp4 fOrdEq s0 vec4zero) (cmp4 fOrdGe s1 vec4zero)
      ⟨some (select4 (smearB c_and.x) vec4zero (smear4 (s0.x + 1))),
       [.p0Store c_and.w], fresh⟩
  | .kSetpGtPush =>
      let c_and := and4 (cmp4 fOrdEq s0 vec4zero) (cmp4 fOrdGt s1 vec4zero)
      ⟨some (select4 (smearB c_and.x) vec4zero (smear4 (s0.x + 1))),
       [.p0Store c_and.w], fresh⟩
  | .kSetpNePush =>
      let c_and := and4 (cmp4 fOrdNe s0 vec4zero) (cmp4 fOrdEq s1 vec4zero)
      ⟨some (select4 (smearB c_and.x) vec4zero (smear4 (s0.x + 1))),
       [.p0Store c_and.w], fresh⟩
  | .kSeq => ⟨some (select4 (cmp4 fOrdEq s0 s1) vec4one vec4zero), [], fresh⟩
  | .kSge => ⟨some (select4 (cmp4 fOrdGe s0 s1) vec4one vec4zero), [], fresh⟩
  | .kSgt => ⟨some (select4 (cmp4 fOrdGt s0 s1) vec4one vec4zero), [], fresh⟩
  | .kSne => ⟨some (select4 (cmp4 fOrdNe s0 s1) vec4one vec4zero), [], fresh⟩
  | .kTrunc => ⟨some (trunc4 s0), [], fresh⟩
  | .kUnhandled => ⟨none, [], fresh⟩

/-- The unconditional tail of ProcessVectorAluInstruction (lines
1432-1436): when the dispatch produced a destination value it is first
stored whole to the previous-vector register pv and then handed to the
write-masked StoreToResult. -/
def vectorAluCommit (e : AluEmit Vec4) (r : InstructionResult) : List Emit :=
  e.trace ++
    (match e.dest with
      | some d => [Emit.pvStore d, Emit.resultStoreV d r]
      | none => [])

inductive AluScalarOpcode
  | kAdds
  | kAddsc0
  | kAddsc1
  | kAddsPrev
  | kCos
  | kExp
  | kFloors
  | kFrcs
  | kKillsEq
  | kKillsGe
  | kKillsGt
  | kKillsNe
  | kKillsOne
  | kLogc
  | kLog
  | kMaxAsf
  | kMaxAs
  | kMaxs
  | kMins
  | kMuls
  | kMulsc0
  | kMulsc1
  | kMulsPrev
  | kMulsPrev2
  | kRcpc
  | kRcpf
  | kRcp
  | kRsqc
  | kRsqf
  | kRsq
  | kSeqs
  | kSges
  | kSgts
  | kSnes
  | kSetpClr
  | kSetpEq
  | kSetpGe
  | kSetpGt
  | kSetpInv
  | kSetpNe
  | kSetpPop
  | kSetpRstr
  | kSin
  | kSqrt
  | kSubs
  | kSubsc0
  | kSubsc1
  | kSubsPrev
  | kTruncs
  | kUnhandled
  deriving DecidableEq

/-- The per-opcode body of ProcessScalarAluInstruction (switch at lines
1515-1907): s0 and s1 are the extracted scalar sources, prev the value of
the previous-scalar register ps read by the *Prev opcodes. -/
def scalarAluDispatch (g : Float32Oracle) (fresh : ℕ) (op : AluScalarOpcode)
    (s0 s1 prev : ℚ) : AluEmit ℚ :=
  match op with
  | .kAdds => ⟨some (s0 + s1), [], fresh⟩
  | .kAddsc0 => ⟨some (s0 + s1), [], fresh⟩
  | .kAddsc1 => ⟨some (s0 + s1), [], fresh⟩
  | .kAddsPrev => ⟨some (s0 + prev), [], fresh⟩
  | .kCos => ⟨some (g.cosQ s0), [], fresh⟩
  | .kExp => ⟨some (g.exp2Q s0), [], fresh⟩
  | .kFloors => ⟨some (⌊s0⌋ : ℚ), [], fresh⟩
  | .kFrcs => ⟨some (fractQ s0), [], fresh⟩
  | .kKillsEq =>
      ⟨some 0,
       [.newBlock fresh, .newBlock (fresh + 1),
        .condBranch (fOrdEq s0 0) (fresh + 1) fresh,
        .setBuildPoint (fresh + 1), .killOp (fresh + 1), .setBuildPoint fresh],
       fresh + 2⟩
  | .kKillsGe =>
      ⟨some 0,
       [.newBlock fresh, .newBlock (fresh + 1),
        .condBranch (fOrdGe s0 0) (fresh + 1) fresh,
        .setBuildPoint (fresh + 1), .killOp (fresh + 1), .setBuildPoint fresh],
       fresh + 2⟩
  | .kKillsGt =>
      ⟨some 0,
       [.newBlock fresh, .newBlock (fresh + 1),
        .condBranch (fOrdGt s0 0) (fresh + 1) fresh,
        .setBuildPoint (fresh + 1), .killOp (fresh + 1), .setBuildPoint fresh],
       fresh + 2⟩
  | .kKillsNe =>
      ⟨some 0,
       [.newBlock fresh, .newBlock (fresh + 1),
        .condBranch (fOrdNe s0 0) (fresh + 1) fresh,
        .setBuildPoint (fresh + 1), .killOp (fresh + 1), .setBuildPoint fresh],
       fresh + 2⟩
  | .kKillsOne =>
      ⟨some 0,
       [.newBlock fresh, .newBlock (fresh + 1),
        .condBranch (fOrdEq s0 1) (fresh + 1) fresh,
        .setBuildPoint (fresh + 1), .killOp (fresh + 1), .setBuildPoint fresh],
       fresh + 2⟩
  | .kLogc =>
      let t := g.log2Q s0
      ⟨some (if g.isInf t then -fltMax else t), [], fresh⟩
  | .kLog => ⟨some (g.log2Q s0), [], fresh⟩
  | .kMaxAsf =>
      ⟨some (max s0 s1), [.a0Store (sclamp (fToS s0) (-256) 255)], fresh⟩
  | .kMaxAs =>
      ⟨some (max s0 s1),
       [.a0Store (sclamp (fToS (s0 + 1 / 2)) (-256) 255)], fresh⟩
  | .kMaxs => ⟨some (max s0 s1), [], fresh⟩
  | .kMins => ⟨some (min s0 s1), [], fresh⟩
  | .kMuls => ⟨some (s0 * s1), [], fresh⟩
  | .kMulsc0 => ⟨some (s0 * s1), [], fresh⟩
  | .kMulsc1 => ⟨some (s0 * s1), [], fresh⟩
  | .kMulsPrev => ⟨some (s0 * prev), [], fresh⟩
  | .kMulsPrev2 => ⟨none, [], fresh⟩
  | .kRcpc => ⟨some (fclamp (1 / s0) (-fltMax) fltMax), [], fresh⟩
  | .kRcpf =>
      let d := 1 / s0
      ⟨some (if g.isInf d then 0 else d), [], fresh⟩
  | .kRcp => ⟨some (if s0 = 0 then 0 else 1 / s0), [], fresh⟩
  | .kRsqc => ⟨some (fclamp (g.invSqrtQ s0) (-fltMax) fltMax), [], fresh⟩
  | .kRsqf =>
      let d := g.invSqrtQ s0
      ⟨some (if g.isInf d then 0 else d), [], fresh⟩
  | .kRsq => ⟨some (if s0 = 0 then 0 else g.invSqrtQ s0), [], fresh⟩
  | .kSeqs => ⟨some (if s0 = 0 then (1 : ℚ) else 0), [], fresh⟩
  | .kSges => ⟨some (if s0 ≥ 0 then (1 : ℚ) else 0), [], fresh⟩
  | .kSgts => ⟨some (if s0 > 0 then (1 : ℚ) else 0), [], fresh⟩
  | .kSnes => ⟨some (if s0 ≠ 0 then (1 : ℚ) else 0), [], fresh⟩
  | .kSetpClr => ⟨some fltMax, [.p0Store false], fresh⟩
  | .kSetpEq =>
      ⟨some (if s0 = 0 then (0 : ℚ) else 1), [.p0Store (fOrdEq s0 0)], fresh⟩
  | .kSetpGe =>
      ⟨some (if s0 ≥ 0 then (0 : ℚ) else 1), [.p0Store (fOrdGe s0 0)], fresh⟩
  | .kSetpGt =>
      ⟨some (if s0 > 0 then (0 : ℚ) else 1), [.p0Store (fOrdGt s0 0)], fresh⟩
  | .kSetpInv =>
      ⟨some (if s0 = 1 then (0 : ℚ) else if s0 = 0 then 1 else s0),
       [.p0Store (fOrdEq s0 1)], fresh⟩
  | .kSetpNe =>
      ⟨some (if s0 ≠ 0 then (0 : ℚ) else 1), [.p0Store (fOrdNe s0 0)], fresh⟩
  | .kSetpPop =>
      ⟨some (max s0 0), [.p0Store (fOrdLe (s0 - 1) 0)], fresh⟩
  | .kSetpRstr => ⟨some s0, [.p0Store (fOrdEq s0 0)], fresh⟩
  | .kSin => ⟨some (g.sinQ s0), [], fresh⟩
  | .kSqrt => ⟨some (g.sqrtQ s0), [], fresh⟩
  | .kSubs => ⟨some (s0 - s1), [], fresh⟩
  | .kSubsc0 => ⟨some (s0 - s1), [], fresh⟩
  | .kSubsc1 => ⟨some (s0 - s1), [], fresh⟩
  | .kSubsPrev => ⟨some (s0 - prev), [], fresh⟩
  | .kTruncs => ⟨some (fToS s0 : ℚ), [], fresh⟩
  | .kUnhandled => ⟨none, [], fresh⟩

/-- The unconditional tail of ProcessScalarAluInstruction (lines
1909-1913): a produced destination value is stored whole to the
previous-scalar register ps and then handed to StoreToResult. -/
def scalarAluCommit (e : AluEmit ℚ) (r : InstructionResult) : List Emit :=
  e.trace ++
    (match e.dest with
      | some d => [Emit.psStore d, Emit.resultStoreS d r]
      | none => [])

inductive TextureDimension
  | k1D
  | k2D
  | k3D
  | kCube
  deriving DecidableEq

/-- Binding table index per dimension (lines 976-992). -/
def textureDimIndex : TextureDimension → ℕ
  | .k1D => 0
  | .k2D => 1
  | .k3D => 2
  | .kCube => 3

inductive FetchOpcode
  | kTextureFetch
  | kUnhandledFetch
  deriving DecidableEq

/-- Abstract semantics of a sample through a binding table: dimension
index, texture binding index, coordinates. -/
structure TextureOracle where
  sample : ℕ → ℕ → Vec4 → Vec4

/-- The per-opcode body of ProcessTextureFetchInstruction (lines
994-1012): only kTextureFetch produces a value, every other fetch opcode
asserts and leaves dest unset (collapsed into kUnhandledFetch). -/
def textureFetchDispatch (t : TextureOracle) (op : FetchOpcode)
    (dim : TextureDimension) (samplerIndex : ℕ) (coords : Vec4) : Option Vec4 :=
  match op with
  | .kTextureFetch => some (t.sample (textureDimIndex dim) samplerIndex coords)
  | .kUnhandledFetch => none

/-- The tail of ProcessTextureFetchInstruction (lines 1014-1017): a
produced value is stored whole to pv and then handed to StoreToResult. -/
def textureFetchCommit (o : Option Vec4) (r : InstructionResult) : List Emit :=
  match o with
  | some d => [Emit.pvStore d, Emit.resultStoreV d r]
  | none => []

/-- C2: evaluation of the scalar maxas opcode at sources (-10, 5).  The
address register receives clamp(trunc(-10 + 0.5), -256, 255) =
clamp(trunc(-9.5), ...) = -9, not the -10 the claim and the comment above
the case (floor(src0 + 0.5)) prescribe, because the emitted
OpConvertFToS rounds toward zero; the float destination is
max(-10, 5) = 5 as claimed. -/
theorem maxas_stores_trunc_not_floor :
    (scalarAluDispatch zeroOracle 0 .kMaxAs (-10) 5 0).trace =
      [Emit.a0Store (-9)] ∧
    (scalarAluDispatch zeroOracle 0 .kMaxAs (-10) 5 0).dest = some 5 ∧
    (-9 : ℤ) ≠ -10 := by
  have hceil : (⌈(-10 : ℚ) + 1 / 2⌉ : ℤ) = -9 := by
    rw [Int.ceil_eq_iff]
    constructor <;> norm_num
  have hfts : fToS ((-10 : ℚ) + 1 / 2) = -9 := by
    rw [fToS, if_pos (by norm_num), hceil]
  have hscl : sclamp (-9) (-256) 255 = -9 := by decide
  refine ⟨?_, ?_, by norm_num⟩
  · show [Emit.a0Store (sclamp (fToS ((-10 : ℚ) + 1 / 2)) (-256) 255)] =
      [Emit.a0Store (-9)]
    rw [hfts, hscl]
  · show some (max (-10 : ℚ) 5) = some 5
    rw [max_eq_right (show (-10 : ℚ) ≤ 5 by norm_num)]

/-
Kill-family emission shape, ProcessVectorAluInstruction lines 1158-1216
and ProcessScalarAluInstruction lines 1551-1619.
-/

/-- The triples (condition, true target, false target) of the conditional
branches in a trace. -/
def condBranchesOf (t : List Emit) : List (Bool × ℕ × ℕ) :=
  t.filterMap fun e =>
    match e with
    | .condBranch c a b => some (c, a, b)
    | _ => none

/-- The blocks of a trace that are terminated by OpKill. -/
def killOpsOf (t : List Emit) : List ℕ :=
  t.filterMap fun e =>
    match e with
    | .killOp b => some b
    | _ => none

/-- The block left as the active build point at the end of a trace. -/
def finalBuildPoint (t : List Emit) : Option ℕ :=
  (t.filterMap fun e =>
    match e with
    | .setBuildPoint b => some b
    | _ => none).getLast?

/-- A kill emission over blocks (f, f + 1): exactly one conditional
branch with the given condition and two distinct successors, of which
exactly the true one is terminated by a discard, while the false one is
left as the straight continuation, and the case produces the zero vec4
destination. -/
def KillBranchShape (e : AluEmit Vec4) (f : ℕ) (cond : Bool) : Prop :=
  e.dest = some vec4zero ∧
  condBranchesOf e.trace = [(cond, f + 1, f)] ∧
  killOpsOf e.trace = [f + 1] ∧
  finalBuildPoint e.trace = some f ∧
  f + 1 ≠ f

/-- Scalar variant of KillBranchShape: the continuation carries the zero
scalar destination. -/
def KillBranchShapeS (e : AluEmit ℚ) (f : ℕ) (cond : Bool) : Prop :=
  e.dest = some 0 ∧
  condBranchesOf e.trace = [(cond, f + 1, f)] ∧
  killOpsOf e.trace = [f + 1] ∧
  finalBuildPoint e.trace = some f ∧
  f + 1 ≠ f

/-- C6: every kill opcode emits one two-successor conditional branch with
exactly one discard-terminated successor and a straight continuation
carrying a zero destination value; the branch condition is the
documented relation applied to the operands, reduced across the four
lanes with logical OR for the vector forms, and applied against the
literal 0.0 (or 1.0 for the kills-one form) for the scalar forms. -/
theorem kill_opcodes_branch_structure :
    (∀ (f : ℕ) (s0 s1 s2 : Vec4),
      KillBranchShape (vectorAluDispatch f .kKillEq s0 s1 s2) f
        (decide (s0.x = s1.x) || decide (s0.y = s1.y) || decide (s0.z = s1.z) ||
          decide (s0.w = s1.w)) ∧
      KillBranchShape (vectorAluDispatch f .kKillGe s0 s1 s2) f
        (decide (s0.x ≥ s1.x) || decide (s0.y ≥ s1.y) || decide (s0.z ≥ s1.z) ||
          decide (s0.w ≥ s1.w)) ∧
      KillBranchShape (vectorAluDispatch f .kKillGt s0 s1 s2) f
        (decide (s0.x > s1.x) || decide (s0.y > s1.y) || decide (s0.z > s1.z) ||
          decide (s0.w > s1.w)) ∧
      KillBranchShape (vectorAluDispatch f .kKillNe s0 s1 s2) f
        (decide (s0.x ≠ s1.x) || decide (s0.y ≠ s1.y) || decide (s0.z ≠ s1.z) ||
          decide (s0.w ≠ s1.w))) ∧
    (∀ (g : Float32Oracle) (f : ℕ) (s0 s1 prev : ℚ),
      KillBranchShapeS (scalarAluDispatch g f .kKillsEq s0 s1 prev) f
        (decide (s0 = 0)) ∧
      KillBranchShapeS (scalarAluDispatch g f .kKillsGe s0 s1 prev) f
        (decide (s0 ≥ 0)) ∧
      KillBranchShapeS (scalarAluDispatch g f .kKillsGt s0 s1 prev) f
        (decide (s0 > 0)) ∧
      KillBranchShapeS (scalarAluDispatch g f .kKillsNe s0 s1 prev) f
        (decide (s0 ≠ 0)) ∧
      KillBranchShapeS (scalarAluDispatch g f .kKillsOne s0 s1 prev) f
        (decide (s0 = 1))) := by
  constructor
  · intro f s0 s1 s2
    exact ⟨⟨rfl, rfl, rfl, rfl, by omega⟩, ⟨rfl, rfl, rfl, rfl, by omega⟩,
      ⟨rfl, rfl, rfl, rfl, by omega⟩, ⟨rfl, rfl, rfl, rfl, by omega⟩⟩
  · intro g f s0 s1 prev
    exact ⟨⟨rfl, rfl, rfl, rfl, by omega⟩, ⟨rfl, rfl, rfl, rfl, by omega⟩,
      ⟨rfl, rfl, rfl, rfl, by omega⟩, ⟨rfl, rfl, rfl, rfl, by omega⟩,
      ⟨rfl, rfl, rfl, rfl, by omega⟩⟩

/-- C10: in all three handlers, a produced destination value is always
mirrored whole to the previous-result register (pv for the vector pipe
and texture fetches, ps for the scalar pipe) immediately before the
write-masked StoreToResult call, for every result descriptor; when the
opcode produces no value (kCube and the unhandled vector opcodes,
kMulsPrev2 and the unhandled scalar opcodes, every fetch opcode other
than kTextureFetch) neither store is emitted. -/
theorem alu_dest_always_mirrored_to_prev :
    (∀ (f : ℕ) (op : AluVectorOpcode) (s0 s1 s2 : Vec4)
        (r : InstructionResult) (d : Vec4),
      (vectorAluDispatch f op s0 s1 s2).dest = some d →
      vectorAluCommit (vectorAluDispatch f op s0 s1 s2) r =
        (vectorAluDispatch f op s0 s1 s2).trace ++
          [Emit.pvStore d, Emit.resultStoreV d r]) ∧
    (∀ (f : ℕ) (op : AluVectorOpcode) (s0 s1 s2 : Vec4) (r : InstructionResult),
      (vectorAluDispatch f op s0 s1 s2).dest = none →
      vectorAluCommit (vectorAluDispatch f op s0 s1 s2) r =
        (vectorAluDispatch f op s0 s1 s2).trace) ∧
    (∀ (f : ℕ) (op : AluVectorOpcode) (s0 s1 s2 : Vec4),
      (vectorAluDispatch f op s0 s1 s2).dest = none ↔
        (op = .kCube ∨ op = .kUnhandled)) ∧
    (∀ (g : Float32Oracle) (f : ℕ) (op : AluScalarOpcode) (s0 s1 prev : ℚ)
        (r : InstructionResult) (d : ℚ),
      (scalarAluDispatch g f op s0 s1 prev).dest = some d →
      scalarAluCommit (scalarAluDispatch g f op s0 s1 prev) r =
        (scalarAluDispatch g f op s0 s1 prev).trace ++
          [Emit.psStore d, Emit.resultStoreS d r]) ∧
    (∀ (g : Float32Oracle) (f : ℕ) (op : AluScalarOpcode) (s0 s1 prev : ℚ)
        (r : InstructionResult),
      (scalarAluDispatch g f op s0 s1 prev).dest = none →
      scalarAluCommit (scalarAluDispatch g f op s0 s1 prev) r =
        (scalarAluDispatch g f op s0 s1 prev).trace) ∧
    (∀ (g : Float32Oracle) (f : ℕ) (op : AluScalarOpcode) (s0 s1 prev : ℚ),
      (scalarAluDispatch g f op s0 s1 prev).dest = none ↔
        (op = .kMulsPrev2 ∨ op = .kUnhandled)) ∧
    (∀ (t : TextureOracle) (op : FetchOpcode) (dim : TextureDimension)
        (si : ℕ) (coords : Vec4) (r : InstructionResult) (d : Vec4),
      textureFetchDispatch t op dim si coords = some d →
      textureFetchCommit (textureFetchDispatch t op dim si coords) r =
        [Emit.pvStore d, Emit.resultStoreV d r]) ∧
    (∀ (t : TextureOracle) (op : FetchOpcode) (dim : TextureDimension)
        (si : ℕ) (coords : Vec4) (r : InstructionResult),
      textureFetchDispatch t op dim si coords = none →
      textureFetchCommit (textureFetchDispatch t op dim si coords) r = []) ∧
    (∀ (t : TextureOracle) (op : FetchOpcode) (dim : TextureDimension)
        (si : ℕ) (coords : Vec4),
      textureFetchDispatch t op dim si coords = none ↔ op = .kUnhandledFetch) := by
  refine ⟨?_, ?_, ?_, ?_, ?_, ?_, ?_, ?_, ?_⟩
  · intro f op s0 s1 s2 r d h
    simp [vectorAluCommit, h]
  · intro f op s0 s1 s2 r h
    simp [vectorAluCommit, h]
  · intro f op s0 s1 s2
    cases op <;> simp [vectorAluDispatch]
  · intro g f op s0 s1 prev r d h
    simp [scalarAluCommit, h]
  · intro g f op s0 s1 prev r h
    simp [scalarAluCommit, h]
  · intro g f op s0 s1 prev
    cases op <;> simp [scalarAluDispatch]
  · intro t op dim si coords r d h
    simp [textureFetchCommit, h]
  · intro t op dim si coords r h
    simp [textureFetchCommit, h]
  · intro t op dim si coords
    cases op <;> simp [textureFetchDispatch]

/-- C10 witness: concrete instances of the mirrored stores, one per
handler — the vector add, the scalar add and a 2D texture fetch each put
their full destination value into the previous-result register before
the masked result store. -/
theorem alu_dest_mirrored_witness :
    (vectorAluCommit (vectorAluDispatch 0 .kAdd vec4one vec4one vec4zero)
        ⟨.kRegister, .kStatic, 0, false, ⟨true, false, false, false⟩,
          ⟨.kX, .kY, .kZ, .kW⟩⟩ =
      (vectorAluDispatch 0 .kAdd vec4one vec4one vec4zero).trace ++
        [Emit.pvStore (add4 vec4one vec4one),
         Emit.resultStoreV (add4 vec4one vec4one)
           ⟨.kRegister, .kStatic, 0, false, ⟨true, false, false, false⟩,
             ⟨.kX, .kY, .kZ, .kW⟩⟩]) ∧
    (scalarAluCommit (scalarAluDispatch zeroOracle 0 .kAdds 2 3 0)
        ⟨.kRegister, .kStatic, 0, false, ⟨false, false, false, true⟩,
          ⟨.kX, .kY, .kZ, .kW⟩⟩ =
      (scalarAluDispatch zeroOracle 0 .kAdds 2 3 0).trace ++
        [Emit.psStore (2 + 3),
         Emit.resultStoreS (2 + 3)
           ⟨.kRegister, .kStatic, 0, false, ⟨false, false, false, true⟩,
             ⟨.kX, .kY, .kZ, .kW⟩⟩]) ∧
    (textureFetchCommit
        (textureFetchDispatch ⟨fun _ _ v => v⟩ .kTextureFetch .k2D 1 vec4one)
        ⟨.kRegister, .kStatic, 0, false, ⟨true, true, true, true⟩,
          ⟨.kX, .kY, .kZ, .kW⟩⟩ =
      [Emit.pvStore vec4one,
       Emit.resultStoreV vec4one
         ⟨.kRegister, .kStatic, 0, false, ⟨true, true, true, true⟩,
           ⟨.kX, .kY, .kZ, .kW⟩⟩]) :=
  ⟨alu_dest_always_mirrored_to_prev.1 0 .kAdd vec4one vec4one vec4zero
      ⟨.kRegister, .kStatic, 0, false, ⟨true, false, false, false⟩,
        ⟨.kX, .kY, .kZ, .kW⟩⟩ (add4 vec4one vec4one) rfl,
   (alu_dest_always_mirrored_to_prev.2.2.2).1 zeroOracle 0 .kAdds 2 3 0
      ⟨.kRegister, .kStatic, 0, false, ⟨false, false, false, true⟩,
        ⟨.kX, .kY, .kZ, .kW⟩⟩ (2 + 3) rfl,
   (alu_dest_always_mirrored_to_prev.2.2.2.2.2.2).1 ⟨fun _ _ v => v⟩
      .kTextureFetch .k2D 1 vec4one
      ⟨.kRegister, .kStatic, 0, false, ⟨true, true, true, true⟩,
        ⟨.kX, .kY, .kZ, .kW⟩⟩ vec4one rfl⟩

/-
Predication state machine.  The triple (open_predicated_block_,
predicated_block_cond_, predicated_block_end_) is threaded through the
ALU and fetch handlers; ProcessVectorAluInstruction lines 1047-1072 and
1438-1444 show the full skeleton (close on mismatch, open when needed,
close after a predicate-setting opcode), repeated identically at lines
840-863 / 945-968 (fetch handlers, which never set the predicate) and
1489-1512 / 1915-1921 (scalar pipe).
-/

/-- The predication region state plus the next fresh block id of the
builder. -/
structure PredMachine where
  isOpen : Bool
  cond : Bool
  endBlk : Option ℕ
  fresh : ℕ
  deriving DecidableEq

/-- The predication-relevant fields of one ALU or fetch instruction:
whether it is predicated, its predicate condition, and whether its
opcode sets the predicate (the setp family, which raises
close_predicated_block). -/
structure PredInstr where
  is_predicated : Bool
  predicate_condition : Bool
  sets_predicate : Bool
  deriving DecidableEq

inductive PredEvent
  | condBranch (cond : Bool) (body merge : ℕ)
  | mergeBranch (merge : ℕ)
  deriving DecidableEq

/-- Closing an open region: branch to predicated_block_end_ (a null
pointer, modelled getD 0, if none is set - the invariant rules that
out), make it the build point and reset the three fields. -/
def predClose (s : PredMachine) : PredMachine × List PredEvent :=
  (⟨false, false, none, s.fresh⟩, [.mergeBranch (s.endBlk.getD 0)])

/-- One ALU or fetch handler pass over the predication state: close the
open region when this instruction is not predicated or disagrees on the
condition; open a region (selection merge plus conditional branch on p0)
when none is open and the instruction is predicated; close again after
the body when the opcode set the predicate. -/
def aluPredStep (s : PredMachine) (i : PredInstr) : PredMachine × List PredEvent :=
  let c1 := if s.isOpen = true ∧
      (i.is_predicated = false ∨ ¬ i.predicate_condition = s.cond) then
    predClose s
  else (s, [])
  let c2 := if c1.1.isOpen = false ∧ i.is_predicated = true then
    (⟨true, i.predicate_condition, some (c1.1.fresh + 1), c1.1.fresh + 2⟩,
     ([.condBranch i.predicate_condition c1.1.fresh (c1.1.fresh + 1)] :
       List PredEvent))
  else (c1.1, [])
  let c3 := if i.sets_predicate = true ∧ c2.1.isOpen = true then predClose c2.1
  else (c2.1, [])
  (c3.1, c1.2 ++ c2.2 ++ c3.2)

/-- ProcessExecInstructionBegin (lines 605-608): asserts no region is
open and resets the three fields. -/
def execBeginStep (s : PredMachine) : PredMachine := ⟨false, false, none, s.fresh⟩

/-- ProcessExecInstructionEnd (lines 677-683): forcibly close the region
still open at the end of an exec group. -/
def execEndStep (s : PredMachine) : PredMachine × List PredEvent :=
  if s.isOpen = true then predClose s else (s, [])

/-- The assertion at line 382: CompleteTranslation fatal-asserts exactly
when a predicated region is still open. -/
def completeTranslationPredAssertFires (s : PredMachine) : Bool := s.isOpen

/-- Folding a run of ALU/fetch instructions through the predication
skeleton, collecting the emitted branch events. -/
def predRun (s : PredMachine) (l : List PredInstr) : PredMachine × List PredEvent :=
  match l with
  | [] => (s, [])
  | i :: rest =>
      let c := aluPredStep s i
      let d := predRun c.1 rest
      (d.1, c.2 ++ d.2)

/-- C5 counterexample: a maximal run of two consecutive predicated
instructions sharing condition true, the first of which is
predicate-setting (a predicated setp), emits two conditional branches
and an intermediate merge, not the single branch/merge pair the claim
demands for every same-condition run. -/
theorem pred_run_setp_two_branches_counterexample :
    (predRun ⟨false, false, none, 0⟩
        [⟨true, true, true⟩, ⟨true, true, false⟩]).2 =
      [.condBranch true 0 1, .mergeBranch 1, .condBranch true 2 3] ∧
    ((predRun ⟨false, false, none, 0⟩
        [⟨true, true, true⟩, ⟨true, true, false⟩]).2.countP
      fun e => match e with | .condBranch .. => true | _ => false) = 2 := by
  decide

/-- Helper for the C5 run property: an instruction predicated on the
condition of the already-open region passes through the skeleton without
emitting anything or changing the state. -/
theorem predRun_open_same_cond (c : Bool) (se : Option ℕ) (sf : ℕ) :
    ∀ n : ℕ,
      predRun ⟨true, c, se, sf⟩ (List.replicate n ⟨true, c, false⟩) =
        (⟨true, c, se, sf⟩, []) := by
  intro n
  induction n with
  | zero => rfl
  | succ n ih => simp [List.replicate_succ, predRun, aluPredStep, ih]

/-- C5 amended: the state invariant (open_predicated_block_ false implies
predicated_block_end_ null) survives every handler, exec begin leaves the
region closed, exec end forcibly closes it, and a maximal run of
predicated instructions sharing one condition and containing no
predicate-setting instruction emits exactly one conditional branch at
its start and exactly one merge branch at its end, regardless of length;
afterwards the region is closed, so the CompleteTranslation assertion
does not fire.  (A predicate-setting instruction inside the run closes
the region early, as the counterexample shows.) -/
theorem pred_region_invariant_and_single_branch :
    (∀ (s : PredMachine) (i : PredInstr),
      (s.isOpen = false → s.endBlk = none) →
      ((aluPredStep s i).1.isOpen = false → (aluPredStep s i).1.endBlk = none)) ∧
    (∀ s : PredMachine,
      (execBeginStep s).isOpen = false ∧ (execBeginStep s).endBlk = none) ∧
    (∀ s : PredMachine,
      (s.isOpen = false → s.endBlk = none) →
      ((execEndStep s).1.isOpen = false ∧ (execEndStep s).1.endBlk = none)) ∧
    (∀ (n : ℕ) (c : Bool) (s : PredMachine),
      s.isOpen = false →
      (predRun s (List.replicate (n + 1) ⟨true, c, false⟩)).2 =
        [PredEvent.condBranch c s.fresh (s.fresh + 1)] ∧
      (execEndStep (predRun s (List.replicate (n + 1) ⟨true, c, false⟩)).1).2 =
        [PredEvent.mergeBranch (s.fresh + 1)] ∧
      completeTranslationPredAssertFires
        (execEndStep (predRun s (List.replicate (n + 1) ⟨true, c, false⟩)).1).1 =
        false) := by
  refine ⟨?_, ?_, ?_, ?_⟩
  · intro s i hinv
    rcases s with ⟨so, sc, se, sf⟩
    rcases i with ⟨ip, pc, sp⟩
    cases so <;> cases ip <;> cases sp <;> cases pc <;> cases sc <;>
      simp_all [aluPredStep, predClose]
  · intro s
    exact ⟨rfl, rfl⟩
  · intro s hinv
    rcases s with ⟨so, sc, se, sf⟩
    cases so
    · exact ⟨rfl, hinv rfl⟩
    · exact ⟨rfl, rfl⟩
  · intro n c s hclosed
    rcases s with ⟨so, sc, se, sf⟩
    cases so
    · simp [List.replicate_succ, predRun, aluPredStep, predRun_open_same_cond,
        execEndStep, predClose, completeTranslationPredAssertFires]
    · simp at hclosed

/-- C5 witness: concrete instances — after one non-predicated step from
the closed initial state the invariant yields endBlk = none, and a run
of three instructions predicated on false from a closed machine with
next block id 5 emits exactly the one conditional branch over blocks
(5, 6). -/
theorem pred_region_invariant_witness :
    (aluPredStep ⟨false, false, none, 0⟩ ⟨false, false, false⟩).1.endBlk = none ∧
    (predRun ⟨false, false, none, 5⟩ (List.replicate 3 ⟨true, false, false⟩)).2 =
      [PredEvent.condBranch false 5 6] :=
  ⟨pred_region_invariant_and_single_branch.1 ⟨false, false, none, 0⟩
      ⟨false, false, false⟩ (fun _ => rfl) rfl,
   (pred_region_invariant_and_single_branch.2.2.2 2 false ⟨false, false, none, 5⟩
      rfl).1⟩

/-
Control-flow block map and the known-unimplemented control-flow
handlers, lines 550-574 and 693-750.
-/

/-- A lazily created control-flow block: the block handle (null until a
builder block is attached) and the prev_dominates flag; the struct lives
in the header (outside src), the spec gives the flag the initial value
true. -/
structure CFBlock where
  block : Option ℕ
  prev_dominates : Bool
  deriving DecidableEq

/-- std::map subscript read: the stored block, or a default-constructed
one for an absent key. -/
def cfBlockAt (m : List (ℕ × CFBlock)) (k : ℕ) : CFBlock :=
  (List.lookup k m).getD ⟨none, true⟩

/-- The builder state the four unimplemented control-flow handlers
touch: the address-to-block map, the active build point, the count of
recorded incomplete-translation errors, and the emitted branches (from
block, to block). -/
structure CfEmitState where
  cf_blocks : List (ℕ × CFBlock)
  buildPoint : ℕ
  errors : ℕ
  branches : List (ℕ × ℕ)
  deriving DecidableEq

/-- Modelled from the spec: EmitUnimplementedTranslationError is declared
in the base translator (outside src); per the spec it records an
explicit incomplete-translation marker consumable by the caller,
modelled as a counter of recorded errors. -/
def emitUnimplementedTranslationError (st : CfEmitState) : CfEmitState :=
  { st with errors := st.errors + 1 }

/-- ProcessLoopStartInstruction (lines 693-707): make the block of this
dword the build point, record the incomplete-translation error (the
LoopMerge emission is a TODO in the source), then branch to the block
registered at dword_index + 1. -/
def processLoopStart (st : CfEmitState) (dword_index : ℕ) : CfEmitState :=
  let st1 := { st with
    buildPoint := (cfBlockAt st.cf_blocks dword_index).block.getD 0 }
  let st2 := emitUnimplementedTranslationError st1
  { st2 with branches := st2.branches ++
      [(st2.buildPoint, (cfBlockAt st2.cf_blocks (dword_index + 1)).block.getD 0)] }

/-- ProcessLoopEndInstruction (lines 709-720), same shape. -/
def processLoopEnd (st : CfEmitState) (dword_index : ℕ) : CfEmitState :=
  let st1 := { st with
    buildPoint := (cfBlockAt st.cf_blocks dword_index).block.getD 0 }
  let st2 := emitUnimplementedTranslationError st1
  { st2 with branches := st2.branches ++
      [(st2.buildPoint, (cfBlockAt st2.cf_blocks (dword_index + 1)).block.getD 0)] }

/-- ProcessCallInstruction (lines 722-735); the handler additionally
trips assert_always before recording the error, same control flow. -/
def processCall (st : CfEmitState) (dword_index : ℕ) : CfEmitState :=
  let st1 := { st with
    buildPoint := (cfBlockAt st.cf_blocks dword_index).block.getD 0 }
  let st2 := emitUnimplementedTranslationError st1
  { st2 with branches := st2.branches ++
      [(st2.buildPoint, (cfBlockAt st2.cf_blocks (dword_index + 1)).block.getD 0)] }

/-- ProcessReturnInstruction (lines 737-750), same shape as call. -/
def processReturn (st : CfEmitState) (dword_index : ℕ) : CfEmitState :=
  let st1 := { st with
    buildPoint := (cfBlockAt st.cf_blocks dword_index).block.getD 0 }
  let st2 := emitUnimplementedTranslationError st1
  { st2 with branches := st2.branches ++
      [(st2.buildPoint, (cfBlockAt st2.cf_blocks (dword_index + 1)).block.getD 0)] }

/-- C8: each of the four known-unimplemented control-flow handlers
(loop-start, loop-end, call, return) records exactly one
incomplete-translation signal and still advances control flow by
emitting one branch from its own block to the block registered at
dword_index + 1. -/
theorem unimplemented_cf_signal_and_branch :
    ∀ (st : CfEmitState) (d bh bt : ℕ),
      (cfBlockAt st.cf_blocks d).block = some bh →
      (cfBlockAt st.cf_blocks (d + 1)).block = some bt →
      (processLoopStart st d).errors = st.errors + 1 ∧
      (processLoopStart st d).branches = st.branches ++ [(bh, bt)] ∧
      (processLoopEnd st d).errors = st.errors + 1 ∧
      (processLoopEnd st d).branches = st.branches ++ [(bh, bt)] ∧
      (processCall st d).errors = st.errors + 1 ∧
      (processCall st d).branches = st.branches ++ [(bh, bt)] ∧
      (processReturn st d).errors = st.errors + 1 ∧
      (processReturn st d).branches = st.branches ++ [(bh, bt)] := by
  intro st d bh bt h1 h2
  refine ⟨rfl, ?_, rfl, ?_, rfl, ?_, rfl, ?_⟩ <;>
    simp [processLoopStart, processLoopEnd, processCall, processReturn,
      emitUnimplementedTranslationError, h1, h2]

/-- C8 witness: a two-entry block map with handles 10 and 11 at dwords 0
and 1; every handler adds one error and the branch (10, 11). -/
theorem unimplemented_cf_witness :
    (processLoopStart ⟨[(0, ⟨some 10, true⟩), (1, ⟨some 11, false⟩)], 0, 0, []⟩
        0).errors = 0 + 1 ∧
    (processLoopStart ⟨[(0, ⟨some 10, true⟩), (1, ⟨some 11, false⟩)], 0, 0, []⟩
        0).branches = [] ++ [(10, 11)] ∧
    (processLoopEnd ⟨[(0, ⟨some 10, true⟩), (1, ⟨some 11, false⟩)], 0, 0, []⟩
        0).errors = 0 + 1 ∧
    (processLoopEnd ⟨[(0, ⟨some 10, true⟩), (1, ⟨some 11, false⟩)], 0, 0, []⟩
        0).branches = [] ++ [(10, 11)] ∧
    (processCall ⟨[(0, ⟨some 10, true⟩), (1, ⟨some 11, false⟩)], 0, 0, []⟩
        0).errors = 0 + 1 ∧
    (processCall ⟨[(0, ⟨some 10, true⟩), (1, ⟨some 11, false⟩)], 0, 0, []⟩
        0).branches = [] ++ [(10, 11)] ∧
    (processReturn ⟨[(0, ⟨some 10, true⟩), (1, ⟨some 11, false⟩)], 0, 0, []⟩
        0).errors = 0 + 1 ∧
    (processReturn ⟨[(0, ⟨some 10, true⟩), (1, ⟨some 11, false⟩)], 0, 0, []⟩
        0).branches = [] ++ [(10, 11)] :=
  unimplemented_cf_signal_and_branch
    ⟨[(0, ⟨some 10, true⟩), (1, ⟨some 11, false⟩)], 0, 0, []⟩ 0 10 11 rfl rfl

/-
Per-instance reset around CompleteTranslation, lines 508-525 and
550-574.
-/

/-- The per-translation containers of the translator instance that this
translation unit manages: whether builder_ still holds a builder,
interface_ids_, the address-to-block map cf_blocks_ and the vertex
attribute map vertex_binding_map_ (keyed by fetch constant and byte
offset). -/
structure TranslatorMaps where
  builder_live : Bool
  interface_ids : List ℕ
  cf_blocks : List (ℕ × CFBlock)
  vertex_binding_map : List ((ℕ × ℕ) × ℕ)
  deriving DecidableEq

/-- The cleanup CompleteTranslation performs after serializing the module
(lines 514-517): the builder is discarded and interface_ids_ is cleared;
no other container is touched. -/
def completeTranslationCleanup (t : TranslatorMaps) : TranslatorMaps :=
  { t with builder_live := false, interface_ids := [] }

/-- Replace the value stored at a key of the modelled std::map. -/
def cfMapSet (m : List (ℕ × CFBlock)) (k : ℕ) (b : CFBlock) :
    List (ℕ × CFBlock) :=
  m.map fun p => if p.1 = k then (k, b) else p

/-- PreProcessControlFlowInstruction (lines 550-574): a fresh builder
block replaces the block handle stored for cf_index (keeping the stored
prev_dominates flag) or a new entry is created; a conditional jump then
clears prev_dominates of its target, creating the entry (without a block
handle) when absent. -/
def preProcessControlFlowBlocks (m : List (ℕ × CFBlock)) (cf_index newBlock : ℕ)
    (is_cond_jmp : Bool) (jmp_target : ℕ) : List (ℕ × CFBlock) :=
  let m1 :=
    match List.lookup cf_index m with
    | none => m ++ [(cf_index, ⟨some newBlock, true⟩)]
    | some b => cfMapSet m cf_index { b with block := some newBlock }
  if is_cond_jmp then
    match List.lookup jmp_target m1 with
    | none => m1 ++ [(jmp_target, ⟨none, false⟩)]
    | some b => cfMapSet m1 jmp_target { b with prev_dominates := false }
  else m1

/-- C9 counterexample: after the CompleteTranslation cleanup of an
instance whose address-to-block map and vertex binding map hold one
entry each, neither map is empty — contradicting the claim that every
per-translation map is cleared before reuse. -/
theorem complete_translation_maps_not_cleared :
    ¬ ((completeTranslationCleanup
          ⟨true, [7], [(0, ⟨some 3, true⟩)], [((95, 0), 11)]⟩).cf_blocks = [] ∧
       (completeTranslationCleanup
          ⟨true, [7], [(0, ⟨some 3, true⟩)], [((95, 0), 11)]⟩).vertex_binding_map =
         []) := by
  decide

/-- Lookup after replacing the entry stored at the same key. -/
theorem lookup_cfMapSet (m : List (ℕ × CFBlock)) (k : ℕ) (b b0 : CFBlock) :
    List.lookup k m = some b0 → List.lookup k (cfMapSet m k b) = some b := by
  induction m with
  | nil => intro h; simp [List.lookup] at h
  | cons p rest ih =>
      intro h
      rcases p with ⟨a, c⟩
      by_cases hk : k = a
      · subst hk
        have hhead : cfMapSet ((k, c) :: rest) k b = (k, b) :: cfMapSet rest k b := by
          simp [cfMapSet]
        rw [hhead, List.lookup, beq_self_eq_true]
      · have hne : (k == a) = false := beq_eq_false_iff_ne.mpr hk
        have hne2 : ¬ a = k := fun hh => hk hh.symm
        rw [List.lookup] at h
        rw [hne] at h
        simp only [cfMapSet, List.map_cons, if_neg hne2]
        rw [List.lookup, hne]
        exact ih h

/-- C9 amended: CompleteTranslation discards the builder and clears the
interface-ID list, but the address-to-block map and the vertex binding
map are left untouched with all their entries; a control-flow address
reused by the next translation only has its block handle replaced (with
the stale prev_dominates flag retained) when PreProcessControlFlow
revisits it. -/
theorem complete_translation_reset_scope :
    (∀ t : TranslatorMaps,
      (completeTranslationCleanup t).builder_live = false ∧
      (completeTranslationCleanup t).interface_ids = [] ∧
      (completeTranslationCleanup t).cf_blocks = t.cf_blocks ∧
      (completeTranslationCleanup t).vertex_binding_map = t.vertex_binding_map) ∧
    (∀ (m : List (ℕ × CFBlock)) (k nb : ℕ) (b : CFBlock),
      List.lookup k m = some b →
      List.lookup k (preProcessControlFlowBlocks m k nb false 0) =
        some ⟨some nb, b.prev_dominates⟩) := by
  constructor
  · intro t
    exact ⟨rfl, rfl, rfl, rfl⟩
  · intro m k nb b h
    simp only [preProcessControlFlowBlocks, h, if_neg Bool.false_ne_true]
    exact lookup_cfMapSet m k _ b h

/-- C9 witness: a one-entry stale map; the cleanup keeps the entry, and
preprocessing dword 0 with fresh block 9 replaces the handle while
keeping prev_dominates. -/
theorem complete_translation_reset_scope_witness :
    List.lookup 0 (preProcessControlFlowBlocks [(0, ⟨some 3, true⟩)] 0 9 false 0) =
      some ⟨some 9, true⟩ :=
  complete_translation_reset_scope.2 [(0, ⟨some 3, true⟩)] 0 9 ⟨some 3, true⟩ rfl
